import Mathlib

/-!
Shallow embedding of the smart-money-sol monitor core
(src/scripts/tx_classifier.py, solana_client.py, wallet_monitor.py,
mcap_checker.py, database.py) with the default configuration of
src/config/settings.py.

Modelling conventions:
* Python floats that hold money amounts, prices and timestamps are
  modelled as rationals.
* Provider transaction signatures are opaque ids, modelled as naturals.
* The Python `set` of processed signatures is modelled as a
  duplicate-free list used only through membership and size; CPython
  enumerates a set in hash order, which is arbitrary and
  implementation-determined, so the enumeration `list(s)` consumed by
  the bulk eviction `set(list(s)[5000:])` is an explicit input of the
  ingestion step (expected to enumerate the grown set).
* External effects (DexScreener token snapshots, the SOL price, the
  wall clock, the Telegram notifier result) are passed to each embedded
  function as explicit inputs.
-/

/-- Default alert threshold from settings.py (ALERT_THRESHOLD = 3). -/
def ALERT_THRESHOLD : Nat := 3

/-- Default maximum market cap filter from settings.py (700000 USD). -/
def MAX_MCAP : ℚ := 700000

/-- Default sliding window length in seconds from settings.py (20). -/
def TIME_WINDOW : ℚ := 20

/-- Default alert cooldown in seconds from settings.py (300). -/
def ALERT_COOLDOWN : ℚ := 300

/-- Default minimum 24h volume in USD from settings.py (10000). -/
def MIN_VOLUME_24H : ℚ := 10000

/-- Default minimum 24h transaction count from settings.py (15). -/
def MIN_TXNS_24H : Nat := 15

/-- Default minimum buy value in USD (dust floor) from settings.py (5). -/
def MIN_BUY_VALUE_USD : ℚ := 5

/-- Default minimum liquidity in USD from settings.py (5000). -/
def MIN_LIQUIDITY : ℚ := 5000

/-- Default bullish re-alert window in seconds from settings.py (1800). -/
def BULLISH_WINDOW : ℚ := 1800

/-- Default blackout hours from settings.py (env default is empty). -/
def BLACKOUT_HOURS : List Nat := []

/-- Default extra threshold during blackout hours from settings.py (1). -/
def BLACKOUT_EXTRA_THRESHOLD : Nat := 1

/-- Default short-list gain threshold from settings.py (0.20). -/
def SHORT_LIST_THRESHOLD : ℚ := 1/5

/-- Default contracts-check gain threshold from settings.py (0.50). -/
def CONTRACTS_CHECK_THRESHOLD : ℚ := 1/2

/-- Default dead-token market cap floor from settings.py (20000 USD). -/
def DEAD_TOKEN_MCAP : ℚ := 20000

/-- DEX program id to human name map from settings.py (DEX_PROGRAM_IDS). -/
def DEX_PROGRAM_IDS : List (String × String) :=
  [("675kPX9MHTjS2zt1qfr1NYHuzeLXfQM9H24wFSdgbctX", "Raydium AMM V4"),
   ("CAMMCzo5YL8w4VFF8KVHrK22GGUsp5VTaW7grrKgrWqK", "Raydium CLMM"),
   ("CPMMoo8L3F4NbTegBCKVNunggL7H1ZpdTHKxQB5qKP1C", "Raydium CPMM"),
   ("JUP6LkbZbjS1jKKwapdHNy74zcZ3tLUZoi5QNyVTaV4", "Jupiter V6"),
   ("6EF8rrecthR5Dkzon8Nwu78hRvfCKubJ14M5uBEwF6P", "Pump.fun"),
   ("pAMMBay6oceH9fJKBRHGP5D4bD4sWpmSwMn52FMfXEA", "PumpSwap"),
   ("whirLbMiicVdio4qvUfM5KAg6Ct8VwpYzGff3uctyCc", "Orca Whirlpool"),
   ("LBUZKhRxPF3XUpBCjp4YzTKgLccjZhTSDM9YuVaPwxo", "Meteora DLMM")]

/-- Set of known DEX program ids (DEX_PROGRAM_ID_SET in settings.py). -/
def DEX_PROGRAM_ID_SET : List String := DEX_PROGRAM_IDS.map Prod.fst

/-- Excluded token mints from settings.py (EXCLUDED_TOKENS). -/
def EXCLUDED_TOKENS : List String :=
  ["So11111111111111111111111111111111111111112",
   "EPjFWdd5AufqSSqeM2qN1xzybapC8G4wEGGkZwyTDt1v",
   "Es9vMFrzaCERmJfrF4H2FYD4KCoNkY11McCe8BenwNYB",
   "mSoLzYCxHdYgdzU16g5QSh3i5K3z3KZK7ytfqcJm7So",
   "7dHbWXmci3dT8UFYWYZweBLXgycu7Y3iL6trKn1Y7ARj",
   "J1toso1uCk3RLmjorhTtrVwY9HJ7X8V9yYac6Y7kGCPn",
   "bSo13r4TkiE4KumL71LsHTPpL2euBYLFx6h9HP3piy1",
   "DezXAZ8z7PnrnRJjz3wXBoRgixCa6xjnB7YaB1pPB263",
   "JUPyiwrYJFskUPiHa7hkeR8VUtAeFoSYbKedZNsDvCN"]

/-- Excluded token symbols from settings.py (EXCLUDED_SYMBOLS). -/
def EXCLUDED_SYMBOLS : List String :=
  ["SOL", "WSOL", "USDC", "USDT", "MSOL", "STSOL", "JITOSOL", "BSOL", "JUP"]

/-- Python int() conversion on a rational: truncation toward zero. -/
def pyInt (q : ℚ) : ℤ := if 0 ≤ q then q.floor else -((-q).floor)

/-- Python str.upper(), modelled as per-character uppercasing. -/
def pyUpper (s : String) : String := String.mk (s.data.map Char.toUpper)

/-- Python str.lower(), modelled as per-character lowercasing. -/
def pyLower (s : String) : String := String.mk (s.data.map Char.toLower)

/-- Token transfer entry of a Helius enhanced transaction
(tokenTransfers items: mint, tokenAmount, fromUserAccount, toUserAccount). -/
structure TokenTransfer where
  mint : String
  tokenAmount : ℚ
  fromUserAccount : String
  toUserAccount : String
deriving DecidableEq, Repr

/-- Native (lamport) transfer entry of a Helius enhanced transaction. -/
structure NativeTransfer where
  amount : ℚ
  fromUserAccount : String
  toUserAccount : String
deriving DecidableEq, Repr

/-- Instruction entry: its program id and the program ids of its
inner instructions. -/
structure TxInstruction where
  programId : String
  innerProgramIds : List String
deriving DecidableEq, Repr

/-- Helius enhanced transaction record, restricted to the fields the
core reads. The provider signature is an opaque id. -/
structure EnhancedTx where
  signature : Nat
  txType : String
  source : String
  feePayer : String
  tokenTransfers : List TokenTransfer
  nativeTransfers : List NativeTransfer
  instructions : List TxInstruction
deriving DecidableEq, Repr

/-- Result record of classify_enhanced_tx in tx_classifier.py. -/
structure Classification where
  txType : String
  is_swap : Bool
  skip : Bool
  reason : String
  source : String
deriving DecidableEq, Repr

/-- Containment of "NFT" in a type tag, modelling the Python test
`"NFT" in tx_type`. -/
def containsNFT (s : String) : Bool := (s.splitOn "NFT").length ≠ 1

/-- Distinct non-empty recipient addresses of the token-transfer list,
modelling the Python set built in the TRANSFER branch of
classify_enhanced_tx. -/
def uniqueRecipients (tts : List TokenTransfer) : List String :=
  ((tts.map (fun tt => tt.toUserAccount)).filter (fun t => t ≠ "")).dedup

/-- Lookup of a program id in DEX_PROGRAM_IDS with a default, modelling
`DEX_PROGRAM_IDS.get(program_id, source)`. -/
def dexName (programId : String) (dflt : String) : String :=
  match DEX_PROGRAM_IDS.find? (fun p => p.1 = programId) with
  | some p => p.2
  | none => dflt

/-- First DEX program id among the outer instructions, modelling the
first scan loop of classify_enhanced_tx. -/
def findOuterDex (ixs : List TxInstruction) : Option String :=
  (ixs.map (fun ix => ix.programId)).find? (fun p => p ∈ DEX_PROGRAM_ID_SET)

/-- First DEX program id among the inner instructions, modelling the
second scan loop of classify_enhanced_tx. -/
def findInnerDex (ixs : List TxInstruction) : Option String :=
  (ixs.flatMap (fun ix => ix.innerProgramIds)).find? (fun p => p ∈ DEX_PROGRAM_ID_SET)

/-- Embedding of classify_enhanced_tx (tx_classifier.py lines 13-114). -/
def classify_enhanced_tx (tx : EnhancedTx) : Classification :=
  if tx.txType = "SWAP" then
    ⟨"SWAP", true, false, "", tx.source⟩
  else if tx.txType = "TRANSFER" then
    if (uniqueRecipients tx.tokenTransfers).length > 5 then
      ⟨"AIRDROP", false, true, "Batch transfer", tx.source⟩
    else
      ⟨"TRANSFER", false, true, "Transfer, not swap", tx.source⟩
  else if containsNFT tx.txType then
    ⟨tx.txType, false, true, "NFT", tx.source⟩
  else
    match findOuterDex tx.instructions with
    | some pid => ⟨"SWAP", true, false, "", dexName pid tx.source⟩
    | none =>
      match findInnerDex tx.instructions with
      | some pid => ⟨"SWAP", true, false, "", dexName pid tx.source⟩
      | none => ⟨tx.txType, false, true, "No DEX program id", tx.source⟩

/-- Result record of is_valid_swap in tx_classifier.py. -/
structure SwapInfo where
  valid : Bool
  token_mint : String
  token_amount : ℚ
  sol_spent : ℚ
  source : String
  reason : String
deriving DecidableEq, Repr

/-- Wrapped SOL mint (WSOL_MINT in tx_classifier.py). -/
def WSOL_MINT : String := "So11111111111111111111111111111111111111112"

/-- First token transfer received by the target wallet whose mint is not
excluded (is_valid_swap step 2). -/
def findReceivedToken (tts : List TokenTransfer) (target : String) :
    Option TokenTransfer :=
  tts.find? (fun tt =>
    pyLower tt.toUserAccount = pyLower target ∧ tt.mint ∉ EXCLUDED_TOKENS)

/-- Native SOL spent by the target wallet: outgoing minus incoming
lamports over 1e9, clamped at 0 (is_valid_swap step 3a). -/
def nativeSolSpent (nts : List NativeTransfer) (target : String) : ℚ :=
  let outgoing := ((nts.filter
    (fun nt => pyLower nt.fromUserAccount = pyLower target)).map
      (fun nt => nt.amount / 1000000000)).sum
  let incoming := ((nts.filter
    (fun nt => pyLower nt.toUserAccount = pyLower target)).map
      (fun nt => nt.amount / 1000000000)).sum
  max 0 (outgoing - incoming)

/-- Wrapped-SOL spent by the target wallet: outgoing minus incoming wSOL
token amounts, clamped at 0 (is_valid_swap step 3b). -/
def wsolSpent (tts : List TokenTransfer) (target : String) : ℚ :=
  let outgoing := ((tts.filter (fun tt =>
    tt.mint = WSOL_MINT ∧ pyLower tt.fromUserAccount = pyLower target)).map
      (fun tt => tt.tokenAmount)).sum
  let incoming := ((tts.filter (fun tt =>
    tt.mint = WSOL_MINT ∧ pyLower tt.toUserAccount = pyLower target)).map
      (fun tt => tt.tokenAmount)).sum
  max 0 (outgoing - incoming)

/-- Embedding of is_valid_swap (tx_classifier.py lines 117-200). -/
def is_valid_swap (tx : EnhancedTx) (target : String) : SwapInfo :=
  let c := classify_enhanced_tx tx
  if ¬ c.is_swap then
    ⟨false, "", 0, 0, c.source, c.reason⟩
  else
    match findReceivedToken tx.tokenTransfers target with
    | none => ⟨false, "", 0, 0, c.source, "No token received"⟩
    | some received =>
      let solNative := nativeSolSpent tx.nativeTransfers target
      let spent := if solNative = 0 then wsolSpent tx.tokenTransfers target
                   else solNative
      ⟨true, received.mint, received.tokenAmount, spent, c.source, ""⟩

/-- Provider response to one HTTP request issued by _rpc_call
(solana_client.py lines 37-73). rateLimited is an HTTP 429 status;
ok carries the JSON-RPC result; rpcError is a 200 body with an error
field; httpe429 is an HTTPError whose text contains 429; httpe is any
other HTTPError; exc is any other exception. -/
inductive RpcResp where
  | rateLimited
  | ok (v : ℤ)
  | rpcError
  | httpe429
  | httpe
  | exc
deriving DecidableEq, Repr

/-- Attempt loop of _rpc_call. fuel is the number of attempts left,
attempt counts the attempts already made, waited accumulates the
seconds slept in backoff. Each attempt consumes one provider response. -/
def rpcCallAux : Nat → Nat → List RpcResp → ℕ → Option ℤ × ℕ
  | 0, _, _, waited => (none, waited)
  | _ + 1, _, [], waited => (none, waited)
  | fuel + 1, attempt, r :: rest, waited =>
    match r with
    | .rateLimited => rpcCallAux fuel (attempt + 1) rest (waited + 2 ^ (attempt + 1))
    | .httpe429 => rpcCallAux fuel (attempt + 1) rest (waited + 2 ^ (attempt + 1))
    | .ok v => (some v, waited)
    | .rpcError => (none, waited)
    | .httpe => (none, waited)
    | .exc => (none, waited)

/-- Embedding of _rpc_call (solana_client.py lines 37-73): at most
max_retries = 3 attempts, backoff of 2 ^ (attempt + 1) seconds after a
rate-limited attempt, immediate failure on any non-rate-limit error.
Returns the result (none models the Python None failure value) and the
total seconds spent in backoff sleeps. -/
def rpcCall (resps : List RpcResp) : Option ℤ × ℕ := rpcCallAux 3 0 resps 0

/-- Pending deferred valuation check (mcap_checker.py schedule entries). -/
structure PendingCheck where
  token_address : String
  token_symbol : String
  alert_mcap : ℤ
  alert_time : ℚ
  check_type : String
  check_at : ℚ
  threshold : Option ℚ
deriving DecidableEq, Repr

/-- CHECK_POINTS of mcap_checker.py lines 28-33: delay in seconds,
check label, optional gain threshold. -/
def CHECK_POINTS : List (ℚ × String × Option ℚ) :=
  [(60, "1min", none),
   (300, "5min", some SHORT_LIST_THRESHOLD),
   (900, "15min", none),
   (1800, "30min", some CONTRACTS_CHECK_THRESHOLD)]

/-- Embedding of schedule_mcap_check (mcap_checker.py lines 36-61):
enqueue one pending check per CHECK_POINTS entry. -/
def schedule_mcap_check (token_address token_symbol : String)
    (alert_mcap : ℤ) (alert_time : ℚ) (now : ℚ) : List PendingCheck :=
  CHECK_POINTS.map (fun cp =>
    ⟨token_address, token_symbol, alert_mcap, alert_time, cp.2.1,
     now + cp.1, cp.2.2⟩)

/-- Fractional change of the current valuation versus the alert
baseline (mcap_checker.py lines 100-103). -/
def changePct (alert_mcap : ℤ) (current_mcap : ℚ) : ℚ :=
  if alert_mcap > 0 then (current_mcap - alert_mcap) / alert_mcap else 0

/-- Classification step of _execute_check (mcap_checker.py lines
105-116): only threshold-carrying checks classify; a valuation at or
below the dead-token floor is trash; a gain at or above the threshold
is short_list for the 5min check and contracts_check otherwise. -/
def classifyCheck (check_type : String) (threshold : Option ℚ)
    (alert_mcap : ℤ) (current_mcap : ℚ) : Option String :=
  match threshold with
  | none => none
  | some t =>
    if current_mcap ≤ DEAD_TOKEN_MCAP then some "trash"
    else if changePct alert_mcap current_mcap ≥ t then
      some (if check_type = "5min" then "short_list" else "contracts_check")
    else some "not_short_list"

/-- Pass flag of _execute_check: true exactly on the threshold-met
branch. -/
def checkPassed (threshold : Option ℚ) (alert_mcap : ℤ)
    (current_mcap : ℚ) : Bool :=
  match threshold with
  | none => false
  | some t =>
    if current_mcap ≤ DEAD_TOKEN_MCAP then false
    else decide (changePct alert_mcap current_mcap ≥ t)

/-- Return record of _execute_check (mcap_checker.py lines 145-154),
with the current valuation supplied as the external DexScreener fetch
result. -/
structure CheckResult where
  token_address : String
  token_symbol : String
  check_type : String
  alert_mcap : ℤ
  current_mcap : ℚ
  change_pct : ℚ
  classification : Option String
  passed : Bool
deriving DecidableEq, Repr

/-- Embedding of the decision part of _execute_check (mcap_checker.py
lines 87-154). -/
def executeCheck (check : PendingCheck) (current_mcap : ℚ) : CheckResult :=
  ⟨check.token_address, check.token_symbol, check.check_type,
   check.alert_mcap, current_mcap,
   changePct check.alert_mcap current_mcap,
   classifyCheck check.check_type check.threshold check.alert_mcap current_mcap,
   checkPassed check.threshold check.alert_mcap current_mcap⟩

/-- Row of the sol_token_evaluations table for one (token, alert_time)
key, restricted to the columns save_token_evaluation touches. -/
structure EvalRow where
  token_symbol : String
  alert_mcap : ℤ
  mcap_5min : Option ℤ
  mcap_30min : Option ℤ
  change_5min_pct : Option ℚ
  change_30min_pct : Option ℚ
  classification : Option String
  ath_mcap : ℤ
deriving DecidableEq, Repr

/-- Optional-argument record of save_token_evaluation
(database.py lines 307-311). -/
structure SaveArgs where
  token_symbol : String
  alert_mcap : ℤ
  mcap_5min : Option ℤ
  mcap_30min : Option ℤ
  change_5min_pct : Option ℚ
  change_30min_pct : Option ℚ
  classification : Option String
  ath_mcap : Option ℤ
deriving DecidableEq, Repr

/-- Embedding of save_token_evaluation (database.py lines 307-361) for
the row matching (token_address, alert_time): update the provided
columns on an existing row, raising ath_mcap only when the new value is
strictly greater; insert a fresh row otherwise, where the Python
`ath_mcap or alert_mcap` falls back to alert_mcap when ath_mcap is
absent or zero. -/
def save_token_evaluation (row : Option EvalRow) (a : SaveArgs) :
    Option EvalRow :=
  match row with
  | some r =>
    some { r with
      mcap_5min := match a.mcap_5min with
        | some v => some v
        | none => r.mcap_5min
      , mcap_30min := match a.mcap_30min with
        | some v => some v
        | none => r.mcap_30min
      , change_5min_pct := match a.change_5min_pct with
        | some v => some v
        | none => r.change_5min_pct
      , change_30min_pct := match a.change_30min_pct with
        | some v => some v
        | none => r.change_30min_pct
      , classification := match a.classification with
        | some v => some v
        | none => r.classification
      , ath_mcap := match a.ath_mcap with
        | some v => if v > r.ath_mcap then v else r.ath_mcap
        | none => r.ath_mcap }
  | none =>
    some ⟨a.token_symbol, a.alert_mcap, a.mcap_5min, a.mcap_30min,
      a.change_5min_pct, a.change_30min_pct, a.classification,
      match a.ath_mcap with
      | some v => if v ≠ 0 then v else a.alert_mcap
      | none => a.alert_mcap⟩

/-- Save arguments built by _execute_check (mcap_checker.py lines
118-138): ath_mcap is always int(current_mcap); the 5min and 30min
checks additionally record their valuation and percentage change;
a computed classification is recorded when present. -/
def checkSaveArgs (check : PendingCheck) (current_mcap : ℚ) : SaveArgs :=
  ⟨check.token_symbol, check.alert_mcap,
   if check.check_type = "5min" then some (pyInt current_mcap) else none,
   if check.check_type = "30min" then some (pyInt current_mcap) else none,
   if check.check_type = "5min"
     then some (changePct check.alert_mcap current_mcap * 100) else none,
   if check.check_type = "30min"
     then some (changePct check.alert_mcap current_mcap * 100) else none,
   classifyCheck check.check_type check.threshold check.alert_mcap current_mcap,
   some (pyInt current_mcap)⟩

/-- One full valuation check against the database row: _execute_check
followed by save_token_evaluation. -/
def runCheck (row : Option EvalRow) (check : PendingCheck)
    (current_mcap : ℚ) : Option EvalRow :=
  save_token_evaluation row (checkSaveArgs check current_mcap)

/-- External token snapshot fetched from DexScreener
(get_token_info_dexscreener result fields the monitor reads). -/
structure TokenInfo where
  symbol : String
  liquidity : ℚ
  mcap : ℚ
  volume_24h : ℚ
  txns_24h_buys : Nat
  txns_24h_sells : Nat
deriving DecidableEq, Repr

/-- One purchase tuple of token_purchases
(wallet, sol_amount, mcap, timestamp). -/
structure Purchase where
  wallet : String
  sol_amount : ℚ
  mcap : ℚ
  timestamp : ℚ
deriving DecidableEq, Repr

/-- Last-alert record stored in last_alerts
(time, mcap, count, wallet_count). -/
structure AlertInfo where
  time : ℚ
  mcap : ℚ
  count : Nat
  wallet_count : Nat
deriving DecidableEq, Repr

/-- In-memory state of SolSmartMoneyMonitor that the ingestion and
alert paths touch. Maps are association lists; processed_signatures is
a duplicate-free list modelling the Python set through membership and
size only (its order carries no meaning). -/
structure MonitorState where
  token_purchases : List (String × List Purchase)
  last_alerts : List (String × AlertInfo)
  processed_signatures : List Nat
  swaps_found : Nat
  alerts_sent : Nat
deriving DecidableEq, Repr

/-- Lookup in an association list keyed by strings. -/
def alistFind {α : Type} (l : List (String × α)) (k : String) : Option α :=
  (l.find? (fun p => p.1 = k)).map Prod.snd

/-- Update or insert a key in an association list. -/
def alistSet {α : Type} : List (String × α) → String → α → List (String × α)
  | [], k, v => [(k, v)]
  | (k0, v0) :: rest, k, v =>
    if k0 = k then (k, v) :: rest else (k0, v0) :: alistSet rest k v

/-- Remove a key from an association list
(modelling dict.pop(key, None)). -/
def alistRemove {α : Type} (l : List (String × α)) (k : String) :
    List (String × α) :=
  l.filter (fun p => p.1 ≠ k)

/-- Embedding of _can_send_alert (wallet_monitor.py lines 170-180): an
alert may be sent when no previous alert is recorded, when the cooldown
has elapsed, or when the unique-wallet count strictly exceeds the count
recorded at the previous alert. -/
def canSendAlert (st : MonitorState) (now : ℚ) (token_address : String)
    (unique_wallet_count : Nat) : Bool :=
  match alistFind st.last_alerts token_address with
  | none => true
  | some last_info =>
    if now - last_info.time > ALERT_COOLDOWN then true
    else if unique_wallet_count > last_info.wallet_count then true
    else false

/-- Embedding of _is_bullish_alert (wallet_monitor.py lines 182-190):
returns (is_bullish, alert_count, first_alert_mcap). -/
def isBullishAlert (st : MonitorState) (now : ℚ) (token_address : String) :
    Bool × Nat × ℚ :=
  match alistFind st.last_alerts token_address with
  | none => (false, 1, 0)
  | some last_info =>
    if now - last_info.time ≤ BULLISH_WINDOW then
      (true, last_info.count + 1, last_info.mcap)
    else (false, 1, 0)

/-- First purchase per wallet in list order, modelling the
unique_wallets dict built in _check_and_alert (lines 307-311). -/
def firstPerWallet (seen : List String) : List Purchase → List Purchase
  | [] => []
  | p :: rest =>
    if p.wallet ∈ seen then firstPerWallet seen rest
    else p :: firstPerWallet (p.wallet :: seen) rest

/-- Embedding of _clean_old_purchases (wallet_monitor.py lines 159-168):
drop purchases as old as the window and prune empty assets. -/
def cleanOldPurchases (tp : List (String × List Purchase)) (now : ℚ) :
    List (String × List Purchase) :=
  (tp.map (fun p =>
    (p.1, p.2.filter (fun q => now - q.timestamp < TIME_WINDOW)))).filter
      (fun p => p.2 ≠ [])

/-- Effective alert threshold with the soft-blackout bump
(wallet_monitor.py lines 313-318). -/
def effectiveThreshold (hour : Nat) : Nat :=
  if hour ∈ BLACKOUT_HOURS then ALERT_THRESHOLD + BLACKOUT_EXTRA_THRESHOLD
  else ALERT_THRESHOLD

/-- Alert decision passed to the notifier
(send_smart_money_alert arguments built in _check_and_alert). -/
structure AlertDecision where
  token_address : String
  wallet_purchases : List (String × ℚ × ℚ)
  is_bullish : Bool
  alert_count : Nat
  first_alert_mcap : ℚ
deriving DecidableEq, Repr

/-- Outcome of one evaluation or ingestion call: the new monitor state,
the decision handed to the notifier when one was attempted, the
valuation checks scheduled, and a tag naming the early-return branch
taken (mirroring the skip log lines of the source). -/
structure CheckOutcome where
  state : MonitorState
  decision : Option AlertDecision
  scheduled : List PendingCheck
  note : Option String
deriving DecidableEq, Repr

/-- Embedding of _check_and_alert (wallet_monitor.py lines 304-424).
External inputs: the wall clock, the local hour, the decision-time
token snapshot, and the notifier result. -/
def checkAndAlert (st : MonitorState) (token_address : String) (now : ℚ)
    (hour : Nat) (info : TokenInfo) (notify_ok : Bool) : CheckOutcome :=
  let purchases := (alistFind st.token_purchases token_address).getD []
  let uniq := firstPerWallet [] purchases
  if uniq.length ≥ effectiveThreshold hour then
    if ¬ canSendAlert st now token_address uniq.length then
      ⟨st, none, [], some "cooldown"⟩
    else
      let total_txns := info.txns_24h_buys + info.txns_24h_sells
      if info.volume_24h < MIN_VOLUME_24H ∨ total_txns < MIN_TXNS_24H then
        ⟨{ st with token_purchases := alistRemove st.token_purchases token_address },
         none, [], some "fake_alert"⟩
      else
        let wallet_purchases := uniq.map (fun p => (p.wallet, p.sol_amount, p.mcap))
        let current_mcap_val := info.mcap
        let b := isBullishAlert st now token_address
        let decision : AlertDecision :=
          ⟨token_address, wallet_purchases, b.1, b.2.1, b.2.2⟩
        if notify_ok then
          ⟨{ st with
              last_alerts := alistSet st.last_alerts token_address
                ⟨now, if b.1 then b.2.2 else current_mcap_val, b.2.1, uniq.length⟩,
              alerts_sent := st.alerts_sent + 1 },
           some decision,
           schedule_mcap_check token_address info.symbol (pyInt current_mcap_val) now now,
           none⟩
        else ⟨st, some decision, [], some "notify_failed"⟩
  else ⟨st, none, [], none⟩

/-- Dust-filter test of process_swap (wallet_monitor.py line 248):
`0 < buy_value_usd < MIN_BUY_VALUE_USD`. -/
def dustRejected (buy_value_usd : ℚ) : Bool :=
  decide (0 < buy_value_usd ∧ buy_value_usd < MIN_BUY_VALUE_USD)

/-- Filter pipeline of process_swap after the duplicate-signature check
(wallet_monitor.py lines 210-299), acting on the state that already
records the signature: swap validation, exclusion lists, liquidity,
dust, market cap, volume and transaction-count floors, then tracking
and alert evaluation. -/
def ingestFilters (st1 : MonitorState) (wallet : String) (tx : EnhancedTx)
    (info : TokenInfo) (decisionInfo : TokenInfo) (sol_price : ℚ)
    (now : ℚ) (hour : Nat) (notify_ok : Bool) : CheckOutcome :=
  let swap := is_valid_swap tx wallet
  if ¬ swap.valid then ⟨st1, none, [], some "invalid"⟩
  else if swap.token_mint ∈ EXCLUDED_TOKENS then
    ⟨st1, none, [], some "excluded_token"⟩
  else
    let purchases := (alistFind st1.token_purchases swap.token_mint).getD []
    if wallet ∈ purchases.map (fun p => p.wallet) then
      ⟨st1, none, [], some "dup_wallet"⟩
    else if pyUpper info.symbol ∈ EXCLUDED_SYMBOLS.map pyUpper then
      ⟨st1, none, [], some "excluded_symbol"⟩
    else if info.liquidity < MIN_LIQUIDITY then
      ⟨st1, none, [], some "liquidity"⟩
    else if dustRejected (swap.sol_spent * sol_price) then
      ⟨st1, none, [], some "dust"⟩
    else if info.mcap > MAX_MCAP then ⟨st1, none, [], some "mcap"⟩
    else if info.volume_24h < MIN_VOLUME_24H then
      ⟨st1, none, [], some "volume"⟩
    else if info.txns_24h_buys + info.txns_24h_sells < MIN_TXNS_24H then
      ⟨st1, none, [], some "txns"⟩
    else
      let newPurchases := purchases ++ [⟨wallet, swap.sol_spent, info.mcap, now⟩]
      let st2 := { st1 with
        token_purchases := alistSet st1.token_purchases swap.token_mint newPurchases,
        swaps_found := st1.swaps_found + 1 }
      let st3 := { st2 with
        token_purchases := cleanOldPurchases st2.token_purchases now }
      checkAndAlert st3 swap.token_mint now hour decisionInfo notify_ok

/-- Embedding of process_swap (wallet_monitor.py lines 192-302).
External inputs: the ingestion-time token snapshot, the decision-time
token snapshot used inside _check_and_alert, the cached SOL price, the
wall clock, the local hour, the notifier result, and enum, the
hash-ordered enumeration that `list(self.processed_signatures)` yields
when the bulk eviction runs: CPython's set order is arbitrary and
implementation-determined, so the enumeration is an explicit input,
expected to list the grown set (one permutation of the tracked ids plus
the new signature); the eviction keeps `enum[5000:]`, which may discard
the signature just added. -/
def processSwap (st : MonitorState) (wallet : String) (tx : EnhancedTx)
    (info : TokenInfo) (decisionInfo : TokenInfo) (sol_price : ℚ)
    (now : ℚ) (hour : Nat) (notify_ok : Bool) (enum : List Nat) :
    CheckOutcome :=
  if tx.signature ∈ st.processed_signatures then
    ⟨st, none, [], some "dup_signature"⟩
  else
    let processed1 := st.processed_signatures ++ [tx.signature]
    let processed := if processed1.length > 10000 then enum.drop 5000
                     else processed1
    ingestFilters { st with processed_signatures := processed } wallet tx
      info decisionInfo sol_price now hour notify_ok

/-- Lookup after an association-list update at the same key returns the
new value. -/
theorem alistFind_alistSet {α : Type} (l : List (String × α)) (k : String)
    (v : α) : alistFind (alistSet l k v) k = some v := by
  induction l with
  | nil => simp [alistSet, alistFind]
  | cons p rest ih =>
    obtain ⟨k0, v0⟩ := p
    by_cases h : k0 = k
    · simp [alistSet, h, alistFind]
    · simpa [alistSet, h, alistFind, List.find?] using ih

/-- Evaluation of alert conditions never modifies the processed
signature set. -/
theorem checkAndAlert_processed (st : MonitorState) (a : String) (now : ℚ)
    (hour : Nat) (info : TokenInfo) (ok : Bool) :
    (checkAndAlert st a now hour info ok).state.processed_signatures
      = st.processed_signatures := by
  simp only [checkAndAlert]
  split_ifs <;> rfl

/-- Filter pipeline never modifies the processed signature set. -/
theorem ingestFilters_processed (st1 : MonitorState) (w : String)
    (tx : EnhancedTx) (info dinfo : TokenInfo) (price now : ℚ) (hour : Nat)
    (ok : Bool) :
    (ingestFilters st1 w tx info dinfo price now hour ok).state.processed_signatures
      = st1.processed_signatures := by
  simp only [ingestFilters]
  split_ifs <;> first
    | rfl
    | (rw [checkAndAlert_processed])

/-- Processed-signature set after one ingestion call: unchanged on a
duplicate, otherwise the signature is recorded and, once the set
exceeds 10000 entries, the first 5000 entries of the supplied
enumeration are dropped. -/
theorem processSwap_processed (st : MonitorState) (w : String)
    (tx : EnhancedTx) (info dinfo : TokenInfo) (price now : ℚ) (hour : Nat)
    (ok : Bool) (enum : List Nat) :
    (processSwap st w tx info dinfo price now hour ok enum).state.processed_signatures
      = if tx.signature ∈ st.processed_signatures then st.processed_signatures
        else if (st.processed_signatures ++ [tx.signature]).length > 10000 then
          enum.drop 5000
        else st.processed_signatures ++ [tx.signature] := by
  simp only [processSwap]
  split_ifs with h
  · rfl
  all_goals rw [ingestFilters_processed]

/-- While the processed set is strictly below the eviction trigger, an
ingestion call leaves the transaction signature in the set (with the
set at capacity, the eviction may discard the signature itself). -/
theorem processSwap_signature_mem (st : MonitorState) (w : String)
    (tx : EnhancedTx) (info dinfo : TokenInfo) (price now : ℚ) (hour : Nat)
    (ok : Bool) (enum : List Nat)
    (hcap : st.processed_signatures.length < 10000) :
    tx.signature ∈
      (processSwap st w tx info dinfo price now hour ok enum).state.processed_signatures := by
  rw [processSwap_processed]
  split_ifs with h1 h2
  · exact h1
  · exact absurd h2 (by
      simp only [List.length_append, List.length_singleton, gt_iff_lt,
        not_lt]
      omega)
  · simp

/-- C3 counterexample: three consecutive rate-limited responses exhaust
the three attempts of _rpc_call, so a success queued as the fourth
response is never requested: the call returns the Failed value (none)
after backoff waits 2 + 4 + 8, not the success result. -/
theorem rpc_three_429_then_success_returns_failed :
    rpcCall [RpcResp.rateLimited, RpcResp.rateLimited, RpcResp.rateLimited,
      RpcResp.ok 7] = (none, 14) ∧
    (rpcCall [RpcResp.rateLimited, RpcResp.rateLimited, RpcResp.rateLimited,
      RpcResp.ok 7]).1 ≠ some 7 := by
  constructor
  · rfl
  · decide

/-- C3 amended: at most two consecutive rate-limited responses followed
by a success return the success result, with the total wait equal to the
sum of the exponential backoff delays (2s, then 4s) for those attempts;
a third consecutive rate-limited response exhausts the three attempts
and returns Failed after waits totalling 14s without a fourth request;
a non-rate-limit error returns Failed immediately, and after k
rate-limited attempts it only keeps the waits already spent. -/
theorem rpc_backoff_policy :
    (∀ (v : ℤ) (rest : List RpcResp), rpcCall (RpcResp.ok v :: rest) = (some v, 0)) ∧
    (∀ (v : ℤ) (rest : List RpcResp),
      rpcCall (RpcResp.rateLimited :: RpcResp.ok v :: rest) = (some v, 2)) ∧
    (∀ (v : ℤ) (rest : List RpcResp),
      rpcCall (RpcResp.rateLimited :: RpcResp.rateLimited :: RpcResp.ok v :: rest)
        = (some v, 2 + 4)) ∧
    (∀ rest : List RpcResp,
      rpcCall (RpcResp.rateLimited :: RpcResp.rateLimited :: RpcResp.rateLimited :: rest)
        = (none, 2 + 4 + 8)) ∧
    (∀ rest : List RpcResp, rpcCall (RpcResp.httpe :: rest) = (none, 0)) ∧
    (∀ rest : List RpcResp, rpcCall (RpcResp.exc :: rest) = (none, 0)) ∧
    (∀ rest : List RpcResp, rpcCall (RpcResp.rpcError :: rest) = (none, 0)) ∧
    (∀ rest : List RpcResp,
      rpcCall (RpcResp.rateLimited :: RpcResp.httpe :: rest) = (none, 2)) := by
  refine ⟨fun v rest => rfl, fun v rest => rfl, fun v rest => rfl,
    fun rest => rfl, fun rest => rfl, fun rest => rfl, fun rest => rfl,
    fun rest => rfl⟩

/-- C5: a threshold-carrying valuation check with positive baseline
classifies trash whenever the current valuation is at or below the
dead-asset floor, short_list (5min) or contracts_check (otherwise) when
the fractional gain reaches the threshold, and not_short_list below it;
checks without a threshold produce no classification; the scheduled
checks carry thresholds only at the 300s and 1800s offsets; and the two
concrete spec examples evaluate as stated. -/
theorem valuation_check_classification :
    (∀ (check : PendingCheck) (t V : ℚ), check.threshold = some t →
      0 < check.alert_mcap →
      ((V ≤ DEAD_TOKEN_MCAP → (executeCheck check V).classification = some "trash") ∧
       (DEAD_TOKEN_MCAP < V → t ≤ (V - check.alert_mcap) / check.alert_mcap →
         (executeCheck check V).classification =
           some (if check.check_type = "5min" then "short_list" else "contracts_check")) ∧
       (DEAD_TOKEN_MCAP < V → (V - check.alert_mcap) / check.alert_mcap < t →
         (executeCheck check V).classification = some "not_short_list"))) ∧
    (∀ (check : PendingCheck) (V : ℚ), check.threshold = none →
      (executeCheck check V).classification = none) ∧
    ((executeCheck ⟨"tok", "SYM", 100000, 0, "5min", 300,
        some SHORT_LIST_THRESHOLD⟩ 125000).classification = some "short_list") ∧
    ((executeCheck ⟨"tok", "SYM", 100000, 0, "5min", 300,
        some SHORT_LIST_THRESHOLD⟩ 15000).classification = some "trash") ∧
    (∀ (a s : String) (m : ℤ) (at0 now : ℚ),
      (schedule_mcap_check a s m at0 now).map
          (fun c => (c.check_at - now, c.check_type, c.threshold)) =
        [(60, "1min", none), (300, "5min", some SHORT_LIST_THRESHOLD),
         (900, "15min", none), (1800, "30min", some CONTRACTS_CHECK_THRESHOLD)]) := by
  refine ⟨?_, ?_, ?_, ?_, ?_⟩
  · intro check t V ht halert
    have hcp : changePct check.alert_mcap V = (V - check.alert_mcap) / check.alert_mcap := by
      simp [changePct, halert]
    refine ⟨fun hd => ?_, fun hd hr => ?_, fun hd hr => ?_⟩
    · simp [executeCheck, classifyCheck, ht, hd]
    · simp [executeCheck, classifyCheck, ht, hcp, not_le.mpr hd, ge_iff_le, hr]
    · simp [executeCheck, classifyCheck, ht, hcp, not_le.mpr hd, ge_iff_le,
        not_le.mpr hr]
  · intro check V ht
    simp [executeCheck, classifyCheck, ht]
  · norm_num [executeCheck, classifyCheck, changePct, DEAD_TOKEN_MCAP,
      SHORT_LIST_THRESHOLD]
  · norm_num [executeCheck, classifyCheck, changePct, DEAD_TOKEN_MCAP,
      SHORT_LIST_THRESHOLD]
  · intro a s m at0 now
    simp [schedule_mcap_check, CHECK_POINTS, add_sub_cancel_left]

/-- C5 witness: the theorem applied to a concrete 30-minute check with
baseline 100000 and current valuation 160000 gives contracts_check. -/
theorem valuation_check_classification_witness :
    (executeCheck ⟨"tok", "SYM", 100000, 0, "30min", 1800,
        some CONTRACTS_CHECK_THRESHOLD⟩ 160000).classification
      = some "contracts_check" := by
  have h := (valuation_check_classification.1
    ⟨"tok", "SYM", 100000, 0, "30min", 1800, some CONTRACTS_CHECK_THRESHOLD⟩
    CONTRACTS_CHECK_THRESHOLD 160000 rfl (by norm_num)).2.1
    (by norm_num [DEAD_TOKEN_MCAP])
    (by norm_num [CONTRACTS_CHECK_THRESHOLD])
  simpa using h

/-- C6: every valuation check on an existing evaluation row raises the
recorded all-time-high to the maximum of the stored peak and the
current valuation, and across any sequence of checks with fluctuating
valuations the recorded peak never decreases. -/
theorem ath_mcap_monotone :
    (∀ (r : EvalRow) (check : PendingCheck) (V : ℚ),
      ∃ r2, runCheck (some r) check V = some r2 ∧
        r2.ath_mcap = max r.ath_mcap (pyInt V)) ∧
    (∀ (r : EvalRow) (steps : List (PendingCheck × ℚ)),
      ∃ r2, steps.foldl (fun row s => runCheck row s.1 s.2) (some r) = some r2 ∧
        r.ath_mcap ≤ r2.ath_mcap) := by
  have step : ∀ (r : EvalRow) (check : PendingCheck) (V : ℚ),
      ∃ r2, runCheck (some r) check V = some r2 ∧
        r2.ath_mcap = max r.ath_mcap (pyInt V) := by
    intro r check V
    refine ⟨_, rfl, ?_⟩
    show (if pyInt V > r.ath_mcap then pyInt V else r.ath_mcap)
        = max r.ath_mcap (pyInt V)
    rcases le_or_lt (pyInt V) r.ath_mcap with h | h
    · rw [if_neg (not_lt.mpr h), max_eq_left h]
    · rw [if_pos h, max_eq_right h.le]
  refine ⟨step, ?_⟩
  intro r steps
  induction steps generalizing r with
  | nil => exact ⟨r, rfl, le_refl _⟩
  | cons s rest ih =>
    obtain ⟨r1, h1, h2⟩ := step r s.1 s.2
    obtain ⟨r2, h3, h4⟩ := ih r1
    refine ⟨r2, ?_, ?_⟩
    · rw [List.foldl_cons, h1, h3]
    · calc r.ath_mcap ≤ r1.ath_mcap := by
            rw [h2]; exact le_max_left _ _
        _ ≤ r2.ath_mcap := h4

/-- C8: a TRANSFER-tagged transaction is always rejected (never a
swap); it is classified AIRDROP exactly when the number of distinct
non-empty recipients of its token transfers exceeds 5 and TRANSFER
otherwise; a SWAP-tagged transaction is accepted immediately as a swap
with the provider source label. -/
theorem transfer_classification :
    (∀ tx : EnhancedTx, tx.txType = "TRANSFER" →
      ((classify_enhanced_tx tx).is_swap = false ∧
       (classify_enhanced_tx tx).skip = true ∧
       ((classify_enhanced_tx tx).txType = "AIRDROP" ↔
         5 < (uniqueRecipients tx.tokenTransfers).length) ∧
       ((uniqueRecipients tx.tokenTransfers).length ≤ 5 →
         (classify_enhanced_tx tx).txType = "TRANSFER"))) ∧
    (∀ tx : EnhancedTx, tx.txType = "SWAP" →
      classify_enhanced_tx tx = ⟨"SWAP", true, false, "", tx.source⟩) := by
  constructor
  · intro tx h
    by_cases hc : 5 < (uniqueRecipients tx.tokenTransfers).length
    · simp [classify_enhanced_tx, h, hc]
    · simp [classify_enhanced_tx, h, hc]
  · intro tx h
    simp [classify_enhanced_tx, h]

/-- Concrete TRANSFER transaction with six distinct recipients. -/
def c8Tx : EnhancedTx :=
  ⟨42, "TRANSFER", "SYSTEM_PROGRAM", "fp",
   [⟨"M", 1, "a", "r1"⟩, ⟨"M", 1, "a", "r2"⟩, ⟨"M", 1, "a", "r3"⟩,
    ⟨"M", 1, "a", "r4"⟩, ⟨"M", 1, "a", "r5"⟩, ⟨"M", 1, "a", "r6"⟩], [], []⟩

/-- C8 witness: the theorem applied to a transfer with six distinct
recipients classifies it as an airdrop and not a swap. -/
theorem transfer_classification_witness :
    (classify_enhanced_tx c8Tx).txType = "AIRDROP" ∧
    (classify_enhanced_tx c8Tx).is_swap = false := by
  have h := transfer_classification.1 c8Tx rfl
  exact ⟨(h.2.2.1).mpr (by decide), h.1⟩

/-- Number of unique wallets in the current window of one asset, as
computed at the start of _check_and_alert. -/
def uniqCount (st : MonitorState) (a : String) : Nat :=
  (firstPerWallet [] ((alistFind st.token_purchases a).getD [])).length

/-- C1: with a recorded previous alert, evaluation suppresses a new
alert exactly when the elapsed time is at most the cooldown and the
unique-wallet count does not exceed the recorded count; a strictly
larger count forces a re-alert even during cooldown and an asset with
no record is never suppressed; inside _check_and_alert the cooldown
early-return fires exactly when _can_send_alert answers false. -/
theorem cooldown_suppression :
    (∀ (st : MonitorState) (now : ℚ) (a : String) (cnt : Nat),
      canSendAlert st now a cnt = false ↔
        ∃ last_info, alistFind st.last_alerts a = some last_info ∧
          now - last_info.time ≤ ALERT_COOLDOWN ∧
          cnt ≤ last_info.wallet_count) ∧
    (∀ (st : MonitorState) (now : ℚ) (a : String) (cnt : Nat),
      alistFind st.last_alerts a = none → canSendAlert st now a cnt = true) ∧
    (∀ (st : MonitorState) (a : String) (now : ℚ) (hour : Nat)
       (info : TokenInfo) (ok : Bool),
      effectiveThreshold hour ≤ uniqCount st a →
      ((checkAndAlert st a now hour info ok).note = some "cooldown" ↔
        canSendAlert st now a (uniqCount st a) = false)) := by
  refine ⟨?_, ?_, ?_⟩
  · intro st now a cnt
    cases h : alistFind st.last_alerts a with
    | none => simp [canSendAlert, h]
    | some info =>
      simp only [canSendAlert, h]
      constructor
      · intro hf
        split_ifs at hf with h1 h2
        exact ⟨info, rfl, not_lt.mp h1, not_lt.mp h2⟩
      · rintro ⟨li, hli, hcd, hcnt⟩
        obtain rfl : info = li := by injection hli
        rw [if_neg (not_lt.mpr hcd), if_neg (not_lt.mpr hcnt)]
  · intro st now a cnt h
    simp [canSendAlert, h]
  · intro st a now hour info ok hthr
    have hthr' : (firstPerWallet []
        ((alistFind st.token_purchases a).getD [])).length
          ≥ effectiveThreshold hour := hthr
    simp only [checkAndAlert]
    rw [if_pos hthr']
    cases hc : canSendAlert st now a (uniqCount st a) with
    | false =>
      have hc' : canSendAlert st now a
          ((firstPerWallet [] ((alistFind st.token_purchases a).getD [])).length)
          = false := hc
      rw [if_pos (by simp [hc'])]
      simp [hc]
    | true =>
      have hc' : canSendAlert st now a
          ((firstPerWallet [] ((alistFind st.token_purchases a).getD [])).length)
          = true := hc
      rw [if_neg (by simp [hc'])]
      split_ifs <;> simp [hc]

/-- Monitor state inside the cooldown window of a prior alert recorded
at time 0 with three wallets. -/
def c1State : MonitorState :=
  ⟨[("MintAAA", [⟨"w1", 1, 100000, 90⟩, ⟨"w2", 1, 100000, 95⟩,
     ⟨"w3", 1, 100000, 99⟩])],
   [("MintAAA", ⟨0, 100000, 1, 3⟩)], [], 3, 1⟩

/-- C1 witness: 100 seconds after an alert recorded with three wallets,
a re-evaluation with three unique wallets is suppressed. -/
theorem cooldown_suppression_witness :
    canSendAlert c1State 100 "MintAAA" 3 = false :=
  (cooldown_suppression.1 c1State 100 "MintAAA" 3).mpr
    ⟨⟨0, 100000, 1, 3⟩, rfl, by norm_num [ALERT_COOLDOWN], by norm_num⟩

/-- C4 amended: ingesting a transaction whose signature is still in the
processed set is a complete no-op on the monitor state (no purchase
record, no window change, no alert-state change, no processed-set
change); every ingestion records its signature in the set and only the
bulk eviction of an arbitrary half can remove it, so a second delivery
of the same transaction right after the first is such a no-op whenever
the first delivery did not trigger an eviction (the set held fewer than
10000 ids). -/
theorem duplicate_signature_ingestion_noop :
    (∀ (st : MonitorState) (w : String) (tx : EnhancedTx)
       (info dinfo : TokenInfo) (price now : ℚ) (hour : Nat) (ok : Bool)
       (enum : List Nat),
      tx.signature ∈ st.processed_signatures →
      processSwap st w tx info dinfo price now hour ok enum
        = ⟨st, none, [], some "dup_signature"⟩) ∧
    (∀ (st : MonitorState) (w1 w2 : String) (tx : EnhancedTx)
       (i1 i2 d1 d2 : TokenInfo) (p1 p2 t1 t2 : ℚ) (h1 h2 : Nat)
       (ok1 ok2 : Bool) (e1 e2 : List Nat),
      st.processed_signatures.length < 10000 →
      processSwap (processSwap st w1 tx i1 d1 p1 t1 h1 ok1 e1).state w2 tx
          i2 d2 p2 t2 h2 ok2 e2
        = ⟨(processSwap st w1 tx i1 d1 p1 t1 h1 ok1 e1).state, none, [],
           some "dup_signature"⟩) := by
  have key : ∀ (st : MonitorState) (w : String) (tx : EnhancedTx)
      (info dinfo : TokenInfo) (price now : ℚ) (hour : Nat) (ok : Bool)
      (enum : List Nat),
      tx.signature ∈ st.processed_signatures →
      processSwap st w tx info dinfo price now hour ok enum
        = ⟨st, none, [], some "dup_signature"⟩ := by
    intro st w tx info dinfo price now hour ok enum hmem
    unfold processSwap
    rw [if_pos hmem]
  refine ⟨key, ?_⟩
  intro st w1 w2 tx i1 i2 d1 d2 p1 p2 t1 t2 h1 h2 ok1 ok2 e1 e2 hcap
  exact key _ w2 tx i2 d2 p2 t2 h2 ok2 e2
    (processSwap_signature_mem st w1 tx i1 d1 p1 t1 h1 ok1 e1 hcap)

/-- State with one processed signature. -/
def c4State : MonitorState := ⟨[], [], [7], 0, 0⟩

/-- Transaction whose signature is already processed in c4State. -/
def c4Tx : EnhancedTx := ⟨7, "SWAP", "JUPITER", "w1", [], [], []⟩

/-- Concrete token snapshot passing every filter. -/
def infoDefault : TokenInfo := ⟨"ABC", 6000, 100000, 20000, 10, 10⟩

/-- C4 witness: redelivering the already-tracked signature 7 changes
nothing, and with the one-entry set far below the eviction trigger a
back-to-back double delivery ends in the exact duplicate no-op. -/
theorem duplicate_signature_ingestion_noop_witness :
    (processSwap c4State "w1" c4Tx infoDefault infoDefault 100 0 12 true []
      = ⟨c4State, none, [], some "dup_signature"⟩) ∧
    (processSwap (processSwap c4State "w1" c4Tx infoDefault infoDefault 100
        0 12 true []).state "w1" c4Tx infoDefault infoDefault 100 0 12 true
        []
      = ⟨(processSwap c4State "w1" c4Tx infoDefault infoDefault 100 0 12
          true []).state, none, [], some "dup_signature"⟩) :=
  ⟨duplicate_signature_ingestion_noop.1 c4State "w1" c4Tx infoDefault
      infoDefault 100 0 12 true [] (by simp [c4State, c4Tx]),
   duplicate_signature_ingestion_noop.2 c4State "w1" "w1" c4Tx infoDefault
      infoDefault infoDefault infoDefault 100 100 0 0 12 12 true true [] []
      (by simp [c4State])⟩

/-- State whose processed set holds the 10000 ids 0..9999. -/
def c7State : MonitorState := ⟨[], [], List.range 10000, 0, 0⟩

/-- Fresh unclassifiable transaction with the new signature 10000. -/
def c7Tx : EnhancedTx := ⟨10000, "UNKNOWN", "", "", [], [], []⟩

/-- C7 counterexample: ingesting a new signature into a full set of
10000 ids triggers the bulk eviction, which keeps the entries from
index 5000 of the 10001-entry enumeration onward and therefore leaves
5001 entries, not 5000 as the claim states; the enumeration used here
is a genuine listing of the grown set, and the count is the same for
every such listing. -/
theorem eviction_leaves_5001 :
    List.range 10001 = c7State.processed_signatures ++ [c7Tx.signature] ∧
    ((processSwap c7State "w" c7Tx infoDefault infoDefault 100 0 12
        true (List.range 10001)).state.processed_signatures).length
      = 5001 ∧
    (5001 : Nat) ≠ 5000 := by
  refine ⟨?_, ?_, ?_⟩
  · show List.range (10000 + 1) = _
    rw [List.range_succ]
    simp [c7State, c7Tx]
  · rw [processSwap_processed]
    have hmem : c7Tx.signature ∉ c7State.processed_signatures := by
      simp [c7Tx, c7State, List.mem_range]
    have hlen : (c7State.processed_signatures ++ [c7Tx.signature]).length
        = 10001 := by
      simp [c7State, c7Tx]
    rw [if_neg hmem, if_pos (by rw [hlen]; norm_num)]
    rw [List.length_drop, List.length_range]
  · decide

/-- C7 amended: the processed-id set is bounded by the capacity 10000
after every ingestion call; when adding an id makes it exceed the
capacity, 5000 entries of the arbitrary hash-ordered enumeration of the
grown set are evicted in bulk in one step, leaving 5001 entries,
whatever that enumeration is. -/
theorem processed_set_capacity (st : MonitorState) (w : String)
    (tx : EnhancedTx) (info dinfo : TokenInfo) (price now : ℚ) (hour : Nat)
    (ok : Bool) (enum : List Nat)
    (hcap : st.processed_signatures.length ≤ 10000)
    (henum : enum.Perm (st.processed_signatures ++ [tx.signature])) :
    (processSwap st w tx info dinfo price now hour
        ok enum).state.processed_signatures.length ≤ 10000 ∧
    (tx.signature ∉ st.processed_signatures →
     st.processed_signatures.length = 10000 →
      (processSwap st w tx info dinfo price now hour
          ok enum).state.processed_signatures
        = enum.drop 5000 ∧
      (processSwap st w tx info dinfo price now hour
          ok enum).state.processed_signatures.length = 5001) := by
  have hel : enum.length = st.processed_signatures.length + 1 := by
    rw [henum.length_eq]
    simp
  simp only [processSwap_processed]
  by_cases hmem : tx.signature ∈ st.processed_signatures
  · simp only [if_pos hmem]
    exact ⟨hcap, fun hn _ => absurd hmem hn⟩
  · simp only [if_neg hmem]
    have h1 : (st.processed_signatures ++ [tx.signature]).length
        = st.processed_signatures.length + 1 := by simp
    by_cases hlen : (st.processed_signatures ++ [tx.signature]).length > 10000
    · simp only [if_pos hlen]
      constructor
      · rw [List.length_drop]
        omega
      · intro _ h10
        refine ⟨by first | rfl | trivial, ?_⟩
        rw [List.length_drop]
        omega
    · simp only [if_neg hlen]
      constructor
      · exact not_lt.mp hlen
      · intro _ h10
        exact absurd (by omega) hlen

/-- C7 witness: the amended bound applied to the full state: after
ingesting signature 10000 into the set 0..9999 under the natural
enumeration, the set shrinks to exactly the 5001 entries from index
5000 of the enumeration onward and stays within the capacity. -/
theorem processed_set_capacity_witness :
    (processSwap c7State "w" c7Tx infoDefault infoDefault 100 0 12
        true (List.range 10001)).state.processed_signatures.length
      ≤ 10000 ∧
    (processSwap c7State "w" c7Tx infoDefault infoDefault 100 0 12
        true (List.range 10001)).state.processed_signatures
      = (List.range 10001).drop 5000 := by
  have heq : List.range 10001
      = c7State.processed_signatures ++ [c7Tx.signature] := by
    show List.range (10000 + 1) = _
    rw [List.range_succ]
    simp [c7State, c7Tx]
  have h := processed_set_capacity c7State "w" c7Tx infoDefault infoDefault
    100 0 12 true (List.range 10001) (by simp [c7State]) (by rw [heq])
  exact ⟨h.1, (h.2 (by simp [c7Tx, c7State, List.mem_range])
    (by simp [c7State])).1⟩

/-- Decision-time token snapshot with valuation 150000 passing the
volume and activity floors. -/
def c2Info : TokenInfo := ⟨"ABC", 6000, 150000, 20000, 10, 10⟩

/-- Monitor state holding a prior alert record for MintAAA at time 0
(baseline 100000, first alert of the streak, three wallets) and a fresh
three-wallet window at time 600. -/
def c2State : MonitorState :=
  ⟨[("MintAAA", [⟨"w4", 2, 150000, 600⟩, ⟨"w5", 2, 150000, 600⟩,
     ⟨"w6", 2, 150000, 600⟩])],
   [("MintAAA", ⟨0, 100000, 1, 3⟩)], [1, 2, 3], 3, 1⟩

/-- C2: when a qualifying alert fires while the elapsed time since the
recorded previous alert is within the bullish window, the emitted
decision is alert N+1 of the streak and reports the stored streak
baseline, which is also carried forward unchanged into the new
last-alert record; the baseline resets to the current valuation exactly
when the bullish window has elapsed; concretely, a second alert 600
seconds after a first alert with baseline 100000 reports baseline
100000, not the interim valuation 150000. -/
theorem bullish_streak_baseline :
    (∀ (st : MonitorState) (a : String) (now : ℚ) (hour : Nat)
       (info : TokenInfo) (prev : AlertInfo),
      alistFind st.last_alerts a = some prev →
      effectiveThreshold hour ≤ uniqCount st a →
      canSendAlert st now a (uniqCount st a) = true →
      ¬ (info.volume_24h < MIN_VOLUME_24H ∨
         info.txns_24h_buys + info.txns_24h_sells < MIN_TXNS_24H) →
      ((now - prev.time ≤ BULLISH_WINDOW →
        (checkAndAlert st a now hour info true).decision =
          some ⟨a, (firstPerWallet []
              ((alistFind st.token_purchases a).getD [])).map
            (fun p => (p.wallet, p.sol_amount, p.mcap)),
            true, prev.count + 1, prev.mcap⟩ ∧
        alistFind (checkAndAlert st a now hour info true).state.last_alerts a
          = some ⟨now, prev.mcap, prev.count + 1, uniqCount st a⟩) ∧
       (BULLISH_WINDOW < now - prev.time →
        (checkAndAlert st a now hour info true).decision =
          some ⟨a, (firstPerWallet []
              ((alistFind st.token_purchases a).getD [])).map
            (fun p => (p.wallet, p.sol_amount, p.mcap)), false, 1, 0⟩ ∧
        alistFind (checkAndAlert st a now hour info true).state.last_alerts a
          = some ⟨now, info.mcap, 1, uniqCount st a⟩))) ∧
    ((checkAndAlert c2State "MintAAA" 600 12 c2Info true).decision =
      some ⟨"MintAAA", [("w4", 2, 150000), ("w5", 2, 150000),
        ("w6", 2, 150000)], true, 2, 100000⟩) := by
  have main : ∀ (st : MonitorState) (a : String) (now : ℚ) (hour : Nat)
      (info : TokenInfo) (prev : AlertInfo),
      alistFind st.last_alerts a = some prev →
      effectiveThreshold hour ≤ uniqCount st a →
      canSendAlert st now a (uniqCount st a) = true →
      ¬ (info.volume_24h < MIN_VOLUME_24H ∨
         info.txns_24h_buys + info.txns_24h_sells < MIN_TXNS_24H) →
      ((now - prev.time ≤ BULLISH_WINDOW →
        (checkAndAlert st a now hour info true).decision =
          some ⟨a, (firstPerWallet []
              ((alistFind st.token_purchases a).getD [])).map
            (fun p => (p.wallet, p.sol_amount, p.mcap)),
            true, prev.count + 1, prev.mcap⟩ ∧
        alistFind (checkAndAlert st a now hour info true).state.last_alerts a
          = some ⟨now, prev.mcap, prev.count + 1, uniqCount st a⟩) ∧
       (BULLISH_WINDOW < now - prev.time →
        (checkAndAlert st a now hour info true).decision =
          some ⟨a, (firstPerWallet []
              ((alistFind st.token_purchases a).getD [])).map
            (fun p => (p.wallet, p.sol_amount, p.mcap)), false, 1, 0⟩ ∧
        alistFind (checkAndAlert st a now hour info true).state.last_alerts a
          = some ⟨now, info.mcap, 1, uniqCount st a⟩)) := by
    intro st a now hour info prev hprev hthr hcool hvol
    have hthr' : (firstPerWallet []
        ((alistFind st.token_purchases a).getD [])).length
          ≥ effectiveThreshold hour := hthr
    have hcool' : canSendAlert st now a ((firstPerWallet []
        ((alistFind st.token_purchases a).getD [])).length) = true := hcool
    simp only [checkAndAlert]
    rw [if_pos hthr', if_neg (by simp [hcool']), if_neg hvol]
    simp only [isBullishAlert, hprev]
    constructor
    · intro hwin
      rw [if_pos hwin]
      exact ⟨rfl, by simp [alistFind_alistSet, uniqCount]⟩
    · intro hwin
      rw [if_neg (not_le.mpr hwin)]
      exact ⟨rfl, by simp [alistFind_alistSet, uniqCount]⟩
  refine ⟨main, ?_⟩
  have h := (main c2State "MintAAA" 600 12 c2Info ⟨0, 100000, 1, 3⟩ rfl
    (by decide)
    (by
      have hfind : alistFind c2State.last_alerts "MintAAA"
          = some ⟨0, 100000, 1, 3⟩ := rfl
      simp only [canSendAlert, hfind]
      norm_num [ALERT_COOLDOWN])
    (by norm_num [c2Info, MIN_VOLUME_24H, MIN_TXNS_24H])).1
    (by norm_num [BULLISH_WINDOW])
  rw [h.1]
  rfl

/-- C2 witness: the theorem applied to the concrete streak state: the
second alert reports baseline 100000 and the stored record carries the
baseline forward with streak count 2. -/
theorem bullish_streak_baseline_witness :
    (checkAndAlert c2State "MintAAA" 600 12 c2Info true).decision =
      some ⟨"MintAAA", (firstPerWallet []
          ((alistFind c2State.token_purchases "MintAAA").getD [])).map
        (fun p => (p.wallet, p.sol_amount, p.mcap)), true, 2, 100000⟩ ∧
    alistFind (checkAndAlert c2State "MintAAA" 600 12
        c2Info true).state.last_alerts "MintAAA"
      = some ⟨600, 100000, 2, uniqCount c2State "MintAAA"⟩ := by
  have h := (bullish_streak_baseline.1 c2State "MintAAA" 600 12 c2Info
    ⟨0, 100000, 1, 3⟩ rfl
    (by decide)
    (by
      have hfind : alistFind c2State.last_alerts "MintAAA"
          = some ⟨0, 100000, 1, 3⟩ := rfl
      simp only [canSendAlert, hfind]
      norm_num [ALERT_COOLDOWN])
    (by norm_num [c2Info, MIN_VOLUME_24H, MIN_TXNS_24H])).1
    (by norm_num [BULLISH_WINDOW])
  exact h

/-- C9: with healthy decision-time metrics, a failed notification
leaves the whole monitor state unchanged and schedules no valuation
checks; on a successful notification of a qualifying alert the
last-alert record is written, the alert counter is incremented, the
four valuation checks are scheduled, and the purchase window is kept. -/
theorem alert_state_only_on_success :
    (∀ (st : MonitorState) (a : String) (now : ℚ) (hour : Nat)
       (info : TokenInfo),
      ¬ (info.volume_24h < MIN_VOLUME_24H ∨
         info.txns_24h_buys + info.txns_24h_sells < MIN_TXNS_24H) →
      (checkAndAlert st a now hour info false).state = st ∧
      (checkAndAlert st a now hour info false).scheduled = []) ∧
    (∀ (st : MonitorState) (a : String) (now : ℚ) (hour : Nat)
       (info : TokenInfo),
      effectiveThreshold hour ≤ uniqCount st a →
      canSendAlert st now a (uniqCount st a) = true →
      ¬ (info.volume_24h < MIN_VOLUME_24H ∨
         info.txns_24h_buys + info.txns_24h_sells < MIN_TXNS_24H) →
      ((checkAndAlert st a now hour info true).state.last_alerts =
         alistSet st.last_alerts a
           ⟨now,
            (if (isBullishAlert st now a).1 then (isBullishAlert st now a).2.2
             else info.mcap),
            (isBullishAlert st now a).2.1, uniqCount st a⟩ ∧
       (checkAndAlert st a now hour info true).state.alerts_sent
         = st.alerts_sent + 1 ∧
       (checkAndAlert st a now hour info true).state.token_purchases
         = st.token_purchases ∧
       (checkAndAlert st a now hour info true).scheduled
         = schedule_mcap_check a info.symbol (pyInt info.mcap) now now)) := by
  constructor
  · intro st a now hour info hvol
    simp only [checkAndAlert]
    by_cases h1 : (firstPerWallet []
        ((alistFind st.token_purchases a).getD [])).length
          ≥ effectiveThreshold hour
    · rw [if_pos h1]
      by_cases h2 : canSendAlert st now a ((firstPerWallet []
          ((alistFind st.token_purchases a).getD [])).length) = true
      · rw [if_neg (by simp [h2]), if_neg hvol]
        exact ⟨rfl, rfl⟩
      · rw [if_pos h2]
        exact ⟨rfl, rfl⟩
    · rw [if_neg h1]
      exact ⟨rfl, rfl⟩
  · intro st a now hour info hthr hcool hvol
    have hthr' : (firstPerWallet []
        ((alistFind st.token_purchases a).getD [])).length
          ≥ effectiveThreshold hour := hthr
    have hcool' : canSendAlert st now a ((firstPerWallet []
        ((alistFind st.token_purchases a).getD [])).length) = true := hcool
    simp only [checkAndAlert]
    rw [if_pos hthr', if_neg (by simp [hcool']), if_neg hvol]
    exact ⟨rfl, rfl, rfl, rfl⟩

/-- C9 witness: applied to the concrete streak state, a failed
notification leaves the state and schedule untouched. -/
theorem alert_state_only_on_success_witness :
    (checkAndAlert c2State "MintAAA" 600 12 c2Info false).state = c2State ∧
    (checkAndAlert c2State "MintAAA" 600 12 c2Info false).scheduled = [] :=
  alert_state_only_on_success.1 c2State "MintAAA" 600 12 c2Info
    (by norm_num [c2Info, MIN_VOLUME_24H, MIN_TXNS_24H])

/-- Evaluation of alert conditions never reports the dust skip: the
dust filter lives in the ingestion pipeline only. -/
theorem checkAndAlert_note_ne_dust (st : MonitorState) (a : String)
    (now : ℚ) (hour : Nat) (info : TokenInfo) (ok : Bool) :
    (checkAndAlert st a now hour info ok).note ≠ some "dust" := by
  simp only [checkAndAlert]
  by_cases h1 : (firstPerWallet []
      ((alistFind st.token_purchases a).getD [])).length
        ≥ effectiveThreshold hour
  · rw [if_pos h1]
    by_cases h2 : canSendAlert st now a ((firstPerWallet []
        ((alistFind st.token_purchases a).getD [])).length) = true
    · rw [if_neg (by simp [h2])]
      by_cases h3 : info.volume_24h < MIN_VOLUME_24H ∨
          info.txns_24h_buys + info.txns_24h_sells < MIN_TXNS_24H
      · rw [if_pos h3]
        simp
      · rw [if_neg h3]
        cases ok <;> simp
    · rw [if_pos h2]
      simp
  · rw [if_neg h1]
    simp

/-- Evaluation of alert conditions with healthy decision-time metrics
leaves the purchase windows untouched (only the fake-alert branch
discards a window). -/
theorem checkAndAlert_purchases (st : MonitorState) (a : String) (now : ℚ)
    (hour : Nat) (info : TokenInfo) (ok : Bool)
    (hvol : ¬ (info.volume_24h < MIN_VOLUME_24H ∨
       info.txns_24h_buys + info.txns_24h_sells < MIN_TXNS_24H)) :
    (checkAndAlert st a now hour info ok).state.token_purchases
      = st.token_purchases := by
  simp only [checkAndAlert]
  by_cases h1 : (firstPerWallet []
      ((alistFind st.token_purchases a).getD [])).length
        ≥ effectiveThreshold hour
  · rw [if_pos h1]
    by_cases h2 : canSendAlert st now a ((firstPerWallet []
        ((alistFind st.token_purchases a).getD [])).length) = true
    · rw [if_neg (by simp [h2]), if_neg hvol]
      cases ok <;> rfl
    · rw [if_pos h2]
  · rw [if_neg h1]

/-- Happy-path ingestion: when every filter passes, the purchase record
of the ingested swap is appended to the window of the received mint and
the windows are pruned by age. -/
theorem processSwap_happy (st : MonitorState) (w : String) (tx : EnhancedTx)
    (info dinfo : TokenInfo) (price now : ℚ) (hour : Nat) (ok : Bool)
    (enum : List Nat)
    (hmem : tx.signature ∉ st.processed_signatures)
    (hvalid : (is_valid_swap tx w).valid = true)
    (hexcl : (is_valid_swap tx w).token_mint ∉ EXCLUDED_TOKENS)
    (hdupw : w ∉ ((alistFind st.token_purchases
        (is_valid_swap tx w).token_mint).getD []).map (fun p => p.wallet))
    (hsym : pyUpper info.symbol ∉ EXCLUDED_SYMBOLS.map pyUpper)
    (hliq : ¬ info.liquidity < MIN_LIQUIDITY)
    (hdust : dustRejected ((is_valid_swap tx w).sol_spent * price) = false)
    (hmcap : ¬ info.mcap > MAX_MCAP)
    (hvol : ¬ info.volume_24h < MIN_VOLUME_24H)
    (htxn : ¬ info.txns_24h_buys + info.txns_24h_sells < MIN_TXNS_24H)
    (hvol2 : ¬ (dinfo.volume_24h < MIN_VOLUME_24H ∨
       dinfo.txns_24h_buys + dinfo.txns_24h_sells < MIN_TXNS_24H)) :
    (processSwap st w tx info dinfo price now hour ok enum).state.token_purchases
      = cleanOldPurchases
          (alistSet st.token_purchases (is_valid_swap tx w).token_mint
            (((alistFind st.token_purchases
                (is_valid_swap tx w).token_mint).getD [])
              ++ [⟨w, (is_valid_swap tx w).sol_spent, info.mcap, now⟩])) now := by
  simp only [processSwap, ingestFilters]
  rw [if_neg hmem, if_neg (by simp [hvalid]), if_neg hexcl, if_neg hdupw,
    if_neg hsym, if_neg hliq, if_neg (by simp [hdust]), if_neg hmcap,
    if_neg hvol, if_neg htxn]
  rw [checkAndAlert_purchases _ _ _ _ _ _ hvol2]

/-- Empty monitor state. -/
def stEmpty : MonitorState := ⟨[], [], [], 0, 0⟩

/-- Swap transaction in which wallet w1 receives MintAAA but spends no
native currency at all. -/
def c10Tx : EnhancedTx :=
  ⟨11, "SWAP", "JUPITER", "w1", [⟨"MintAAA", 1000, "pool", "w1"⟩], [], []⟩

/-- A swap in which wallet w1 receives MintAAA and spends neither
native SOL nor wSOL is validated with sol_spent 0, for any provider
signature. -/
theorem zeroSpendSwapInfo (sig : Nat) :
    is_valid_swap ⟨sig, "SWAP", "JUPITER", "w1",
        [⟨"MintAAA", 1000, "pool", "w1"⟩], [], []⟩ "w1"
      = ⟨true, "MintAAA", 1000, 0, "JUPITER", ""⟩ := by
  have hout : List.filter (fun tt =>
      tt.mint = WSOL_MINT ∧ pyLower tt.fromUserAccount = pyLower "w1")
      [(⟨"MintAAA", 1000, "pool", "w1"⟩ : TokenTransfer)] = [] := by decide
  have hin : List.filter (fun tt =>
      tt.mint = WSOL_MINT ∧ pyLower tt.toUserAccount = pyLower "w1")
      [(⟨"MintAAA", 1000, "pool", "w1"⟩ : TokenTransfer)] = [] := by decide
  have hwsol : wsolSpent [(⟨"MintAAA", 1000, "pool", "w1"⟩ :
      TokenTransfer)] "w1" = 0 := by
    simp only [wsolSpent, hout, hin]
    norm_num
  have hnative : nativeSolSpent ([] : List NativeTransfer) "w1" = 0 := by
    norm_num [nativeSolSpent]
  simp only [is_valid_swap, classify_enhanced_tx]
  norm_num [hnative, hwsol, findReceivedToken, EXCLUDED_TOKENS]
  rw [if_pos (by decide)]

/-- C10: the dust filter of process_swap rejects exactly the purchases
whose computed USD value lies strictly between 0 and the configured
floor; a computed value of exactly 0 is never rejected as dust, and a
zero-native-spend swap that passes the other filters still creates a
purchase record in the window. -/
theorem dust_filter_zero_value :
    (∀ v : ℚ, dustRejected v = true ↔ 0 < v ∧ v < MIN_BUY_VALUE_USD) ∧
    dustRejected 0 = false ∧
    (∀ (st : MonitorState) (w : String) (tx : EnhancedTx)
       (info dinfo : TokenInfo) (price now : ℚ) (hour : Nat) (ok : Bool)
       (enum : List Nat),
      (is_valid_swap tx w).sol_spent * price = 0 →
      (processSwap st w tx info dinfo price now hour ok enum).note
        ≠ some "dust") ∧
    (is_valid_swap c10Tx "w1").sol_spent = 0 ∧
    (alistFind (processSwap stEmpty "w1" c10Tx infoDefault infoDefault 100 0
        12 true []).state.token_purchases "MintAAA"
      = some [⟨"w1", 0, 100000, 0⟩]) := by
  have ha : ∀ v : ℚ, dustRejected v = true ↔
      0 < v ∧ v < MIN_BUY_VALUE_USD := by
    intro v
    simp [dustRejected]
  have hb : dustRejected 0 = false := by
    cases hb0 : dustRejected 0 with
    | false => rfl
    | true => exact absurd ((ha 0).mp hb0).1 (lt_irrefl 0)
  have hswap : is_valid_swap c10Tx "w1"
      = ⟨true, "MintAAA", 1000, 0, "JUPITER", ""⟩ := zeroSpendSwapInfo 11
  refine ⟨ha, hb, ?_, ?_, ?_⟩
  · intro st w tx info dinfo price now hour ok enum hzero
    have hd : dustRejected ((is_valid_swap tx w).sol_spent * price)
        = false := by
      rw [hzero]
      exact hb
    simp only [processSwap, ingestFilters]
    by_cases h1 : tx.signature ∈ st.processed_signatures
    · rw [if_pos h1]
      simp
    · rw [if_neg h1]
      by_cases h2 : (is_valid_swap tx w).valid = true
      · rw [if_neg (by simp [h2])]
        by_cases h3 : (is_valid_swap tx w).token_mint ∈ EXCLUDED_TOKENS
        · rw [if_pos h3]
          simp
        · rw [if_neg h3]
          by_cases h4 : w ∈ ((alistFind st.token_purchases
              (is_valid_swap tx w).token_mint).getD []).map
              (fun p => p.wallet)
          · rw [if_pos h4]
            simp
          · rw [if_neg h4]
            by_cases h5 : pyUpper info.symbol ∈ EXCLUDED_SYMBOLS.map pyUpper
            · rw [if_pos h5]
              simp
            · rw [if_neg h5]
              by_cases h6 : info.liquidity < MIN_LIQUIDITY
              · rw [if_pos h6]
                simp
              · rw [if_neg h6, if_neg (by simp [hd])]
                by_cases h8 : info.mcap > MAX_MCAP
                · rw [if_pos h8]
                  simp
                · rw [if_neg h8]
                  by_cases h9 : info.volume_24h < MIN_VOLUME_24H
                  · rw [if_pos h9]
                    simp
                  · rw [if_neg h9]
                    by_cases h10 : info.txns_24h_buys + info.txns_24h_sells
                        < MIN_TXNS_24H
                    · rw [if_pos h10]
                      simp
                    · rw [if_neg h10]
                      exact checkAndAlert_note_ne_dust _ _ _ _ _ _
      · rw [if_pos (by simp [h2])]
        simp
  · rw [hswap]
  · have h := processSwap_happy stEmpty "w1" c10Tx infoDefault infoDefault
      100 0 12 true []
      (by decide)
      (by rw [hswap])
      (by rw [hswap]; decide)
      (by rw [hswap]; simp [stEmpty, alistFind])
      (by decide)
      (by norm_num [infoDefault, MIN_LIQUIDITY])
      (by simp only [hswap]; norm_num [dustRejected, MIN_BUY_VALUE_USD])
      (by norm_num [infoDefault, MAX_MCAP])
      (by norm_num [infoDefault, MIN_VOLUME_24H])
      (by norm_num [infoDefault, MIN_TXNS_24H])
      (by norm_num [infoDefault, MIN_VOLUME_24H, MIN_TXNS_24H])
    rw [h]
    simp only [hswap]
    norm_num [cleanOldPurchases, alistSet, alistFind, stEmpty, infoDefault,
      TIME_WINDOW]

/-- C10 witness: the dust filter applied through the theorem: a value
of 3 USD is rejected as dust, and the zero-value concrete ingestion
recorded its purchase. -/
theorem dust_filter_zero_value_witness :
    dustRejected 3 = true ∧
    (processSwap stEmpty "w2" c10Tx infoDefault infoDefault 100 0 12
        true []).note ≠ some "dust" := by
  constructor
  · exact (dust_filter_zero_value.1 3).mpr (by norm_num [MIN_BUY_VALUE_USD])
  · refine dust_filter_zero_value.2.2.1 stEmpty "w2" c10Tx infoDefault
      infoDefault 100 0 12 true [] ?_
    have hnone : findReceivedToken c10Tx.tokenTransfers "w2" = none := by
      decide
    simp [is_valid_swap, hnone]
    split_ifs <;> rfl

/-- Token snapshot whose liquidity is below the MIN_LIQUIDITY floor. -/
def c4LowLiq : TokenInfo := ⟨"ABC", 0, 100000, 20000, 10, 10⟩

/-- Zero-spend swap carrying the fresh signature 10000. -/
def c4aTx : EnhancedTx :=
  ⟨10000, "SWAP", "JUPITER", "w1", [⟨"MintAAA", 1000, "pool", "w1"⟩], [], []⟩

/-- Hash-ordered enumeration of the grown processed set that happens to
list the new signature first, so the bulk eviction removes it. -/
def c4Enum : List Nat := 10000 :: List.range 10000

/-- Liquidity-floor rejection: when a fresh signature triggers the bulk
eviction and the swap reaches the liquidity filter with a snapshot
below the floor, the call returns the liquidity note, with the
purchases, alerts and counters untouched and the processed set evicted
to the enumeration's tail. -/
theorem processSwap_liquidity (st : MonitorState) (w : String)
    (tx : EnhancedTx) (info dinfo : TokenInfo) (price now : ℚ) (hour : Nat)
    (ok : Bool) (enum : List Nat)
    (hmem : tx.signature ∉ st.processed_signatures)
    (hlen : (st.processed_signatures ++ [tx.signature]).length > 10000)
    (hvalid : (is_valid_swap tx w).valid = true)
    (hexcl : (is_valid_swap tx w).token_mint ∉ EXCLUDED_TOKENS)
    (hdupw : w ∉ ((alistFind st.token_purchases
        (is_valid_swap tx w).token_mint).getD []).map (fun p => p.wallet))
    (hsym : pyUpper info.symbol ∉ EXCLUDED_SYMBOLS.map pyUpper)
    (hliq : info.liquidity < MIN_LIQUIDITY) :
    processSwap st w tx info dinfo price now hour ok enum
      = ⟨{ st with processed_signatures := enum.drop 5000 }, none, [],
         some "liquidity"⟩ := by
  simp only [processSwap, ingestFilters]
  rw [if_neg hmem, if_pos hlen, if_neg (by simp [hvalid]), if_neg hexcl,
    if_neg hdupw, if_neg hsym, if_pos hliq]

/-- C4 counterexample: with the processed set full at 10000 ids, a
first delivery of signature 10000 is handled (consumed and its id
recorded) but rejected by the liquidity floor, so it creates no
purchase record; the eviction its arrival triggers keeps an arbitrary
half of the hash-ordered enumeration, which here lists the new
signature among the evicted half, so the id is discarded again.  A
second delivery of the very same transaction then finds its signature
untracked, passes every filter with a healthy snapshot and creates a
purchase record, changing the per-asset window - refuting the claim
that a redelivery of an already-handled signature always creates no
record and leaves the windows unchanged. -/
theorem evicted_signature_redelivery_creates_record :
    c4Enum.Perm (c7State.processed_signatures ++ [c4aTx.signature]) ∧
    (processSwap c7State "w1" c4aTx c4LowLiq c4LowLiq 100 0 12 true
        c4Enum).note = some "liquidity" ∧
    (processSwap c7State "w1" c4aTx c4LowLiq c4LowLiq 100 0 12 true
        c4Enum).state.token_purchases = [] ∧
    c4aTx.signature ∉ (processSwap c7State "w1" c4aTx c4LowLiq c4LowLiq 100
        0 12 true c4Enum).state.processed_signatures ∧
    alistFind (processSwap (processSwap c7State "w1" c4aTx c4LowLiq c4LowLiq
        100 0 12 true c4Enum).state "w1" c4aTx infoDefault infoDefault 100 1
        12 true []).state.token_purchases "MintAAA"
      = some [⟨"w1", 0, 100000, 1⟩] := by
  have hswap : is_valid_swap c4aTx "w1"
      = ⟨true, "MintAAA", 1000, 0, "JUPITER", ""⟩ := zeroSpendSwapInfo 10000
  have hd : (10000 : ℕ) ∉ c4Enum.drop 5000 := by
    intro h
    have h3 := h
    simp only [c4Enum] at h3
    rw [show (5000 : ℕ) = 4999 + 1 from rfl, List.drop_succ_cons] at h3
    have h2 := List.mem_of_mem_drop h3
    simp [List.mem_range] at h2
  have hlen10 : (c7State.processed_signatures ++ [c4aTx.signature]).length
      = 10001 := by
    simp [c7State, c4aTx]
  have hcall1 : processSwap c7State "w1" c4aTx c4LowLiq c4LowLiq 100 0 12
      true c4Enum
      = ⟨{ c7State with processed_signatures := c4Enum.drop 5000 }, none,
         [], some "liquidity"⟩ :=
    processSwap_liquidity c7State "w1" c4aTx c4LowLiq c4LowLiq 100 0 12
      true c4Enum
      (by simp [c4aTx, c7State, List.mem_range])
      (by rw [hlen10]; norm_num)
      (by rw [hswap])
      (by rw [hswap]; decide)
      (by rw [hswap]; simp [c7State, alistFind])
      (by decide)
      (by norm_num [c4LowLiq, MIN_LIQUIDITY])
  have hd2 : c4aTx.signature ∉ ({ c7State with
      processed_signatures := c4Enum.drop 5000 } :
      MonitorState).processed_signatures := by
    simpa [c4aTx] using hd
  refine ⟨?_, ?_, ?_, ?_, ?_⟩
  · have hperm : c4Enum.Perm (List.range 10000 ++ [10000]) :=
      (List.perm_append_singleton 10000 (List.range 10000)).symm
    simpa [c7State, c4aTx] using hperm
  · rw [hcall1]
  · rw [hcall1]
    simp [c7State]
  · rw [hcall1]
    exact hd2
  · rw [hcall1]
    have h := processSwap_happy
      { c7State with processed_signatures := c4Enum.drop 5000 } "w1" c4aTx
      infoDefault infoDefault 100 1 12 true []
      hd2
      (by rw [hswap])
      (by rw [hswap]; decide)
      (by rw [hswap]; simp [c7State, alistFind])
      (by decide)
      (by norm_num [infoDefault, MIN_LIQUIDITY])
      (by simp only [hswap]; norm_num [dustRejected, MIN_BUY_VALUE_USD])
      (by norm_num [infoDefault, MAX_MCAP])
      (by norm_num [infoDefault, MIN_VOLUME_24H])
      (by norm_num [infoDefault, MIN_TXNS_24H])
      (by norm_num [infoDefault, MIN_VOLUME_24H, MIN_TXNS_24H])
    rw [h]
    simp only [hswap]
    norm_num [cleanOldPurchases, alistSet, alistFind, c7State, infoDefault,
      TIME_WINDOW]
